import Mathlib

/-!
Shallow embedding of the `shepherd` simulation core, translated from the
Python sources (`shepherd/entity/core.py`, `shepherd/entity/bases.py`,
`shepherd/world/world.py`, `shepherd/world/point.py`, `shepherd/utils.py`).

Python floats that only ever hold exact decimal fractions of small integers
are modelled as rationals; Python ints as `Int`/`Nat`; `raise` as explicit
error values.  Mutating methods that can raise after partial mutation are
modelled as functions returning the (possibly partially) updated state
together with an optional error, which is how an exception leaves a Python
object: mutations performed before the `raise` survive.
-/

namespace Shepherd

/-- `utils.bounded(value, min_bound, max_bound)`:
`max(min_bound, min(max_bound, value))`. -/
def bounded (value minB maxB : ℚ) : ℚ :=
  max minB (min maxB value)

/-- `shepherd.world.point.Point`: an integer (x, y) pair. -/
structure Point where
  x : Int
  y : Int
deriving DecidableEq, Repr

/-- The mutable per-entity state written by `Entity.mod_health` and
`Organism.mod_energy` (`entity/core.py`): `health`, `intact`, and for
organisms `energy`, `conscious`. -/
structure OrgState where
  health : ℚ
  intact : Bool
  energy : ℚ
  conscious : Bool
deriving DecidableEq, Repr

/-- The initial `_state` of an `Organism`: `health = stamina`, `intact`,
`energy = 100`, `conscious` (see `Entity.__init__` and
`Organism.__init__`). -/
def initState (stamina : ℚ) : OrgState :=
  { health := stamina, intact := true, energy := 100, conscious := true }

/-- `Entity.mod_health(amount)`: no-op when not intact; otherwise scale
`amount` by `(100 - resistance) / 100`, clamp `health + amount` to
`[0, stamina]`, and flip `intact` to false when the clamped health is 0. -/
def mod_health (resistance stamina : ℚ) (amount : ℚ) (s : OrgState) : OrgState :=
  if s.intact = false then s
  else
    let amount' := amount * ((100 - resistance) / 100)
    let health := bounded (s.health + amount') 0 stamina
    if health = 0 then { s with health := health, intact := false }
    else { s with health := health }

/-- `Organism.mod_energy(amount)`: no-op when not conscious; otherwise clamp
`energy + amount` to `[0, 100]` and flip `conscious` to false when the
clamped energy is 0. -/
def mod_energy (amount : ℚ) (s : OrgState) : OrgState :=
  if s.conscious = false then s
  else
    let energy := bounded (s.energy + amount) 0 100
    if energy = 0 then { s with energy := energy, conscious := false }
    else { s with energy := energy }

/-- The state-mutating operations available on an entity's health/energy
record: every write to `health`/`intact`/`energy`/`conscious` in the source
goes through `mod_health` or `mod_energy` (attack damage, action energy
costs, and the metabolism/regeneration calls inside `Organism.tick` are all
instances with particular amounts). -/
inductive EntityOp
  | modHealth (amount : ℚ)
  | modEnergy (amount : ℚ)

/-- Apply one `EntityOp` to a state. -/
def applyOp (resistance stamina : ℚ) : EntityOp → OrgState → OrgState
  | .modHealth a, s => mod_health resistance stamina a s
  | .modEnergy a, s => mod_energy a s

/-- Run a sequence of entity operations from a starting state. -/
def runOps (resistance stamina : ℚ) (ops : List EntityOp) (s : OrgState) : OrgState :=
  ops.foldl (fun st op => applyOp resistance stamina op st) s

/-- The claimed range invariants on an entity state. -/
def StateBounds (stamina : ℚ) (s : OrgState) : Prop :=
  0 ≤ s.health ∧ s.health ≤ stamina ∧ 0 ≤ s.energy ∧ s.energy ≤ 100

instance (stamina : ℚ) (s : OrgState) : Decidable (StateBounds stamina s) := by
  unfold StateBounds; infer_instance

/-- `Action` from `entity/core.py`, minus the effect closure: the `delay`
and the internal `_ticks` counter.  The effect's interaction with the
entity is captured by `Action.tickCall` below. -/
structure ActionState where
  delay : Nat
  ticks : Nat
deriving DecidableEq, Repr

/-- `Action.tick(origin, entity, world)`: increment `_ticks`; once
`_ticks >= delay`, run the effect (whose returned energy cost is `cost`),
debit it via `entity.mod_energy(-cost)` and return `True` ("done"); before
that, return `False`.  The returned flag records whether the effect was
invoked on this call. -/
def Action.tickCall (cost : ℚ) (a : ActionState) (s : OrgState) :
    ActionState × OrgState × Bool :=
  let t := a.ticks + 1
  if a.delay ≤ t then ({ a with ticks := t }, mod_energy (-cost) s, true)
  else ({ a with ticks := t }, s, false)

/-- Iterate `Action.tickCall` a number of times (repeated `tick` calls on
the same `Action` object). -/
def Action.runCalls (cost : ℚ) : Nat → ActionState × OrgState → ActionState × OrgState
  | 0, p => p
  | n + 1, p =>
    let q := Action.tickCall cost p.1 p.2
    Action.runCalls cost n (q.1, q.2.1)

theorem Action.runCalls_add (cost : ℚ) (m n : Nat) (p : ActionState × OrgState) :
    Action.runCalls cost (m + n) p = Action.runCalls cost n (Action.runCalls cost m p) := by
  induction m generalizing p with
  | zero => simp [Action.runCalls]
  | succ k ih =>
    have : k + 1 + n = (k + n) + 1 := by omega
    rw [this]
    simp only [Action.runCalls]
    exact ih _

theorem Action.runCalls_lt (cost : ℚ) (d : Nat) :
    ∀ (n t : Nat) (s : OrgState), t + n < d →
      Action.runCalls cost n (⟨d, t⟩, s) = (⟨d, t + n⟩, s) := by
  intro n
  induction n with
  | zero => intro t s _; simp [Action.runCalls]
  | succ k ih =>
    intro t s h
    simp only [Action.runCalls, Action.tickCall]
    rw [if_neg (by omega)]
    have := ih (t + 1) s (by omega)
    simpa [Nat.add_assoc, Nat.add_comm, Nat.add_left_comm] using this

theorem bounded_lower (value minB maxB : ℚ) : minB ≤ bounded value minB maxB :=
  le_max_left _ _

theorem bounded_upper (value minB maxB : ℚ) (h : minB ≤ maxB) :
    bounded value minB maxB ≤ maxB :=
  max_le h (min_le_left _ _)

theorem mod_health_bounds (resistance stamina a : ℚ) (hst : 0 ≤ stamina)
    (s : OrgState) (h : StateBounds stamina s) :
    StateBounds stamina (mod_health resistance stamina a s) := by
  obtain ⟨h1, h2, h3, h4⟩ := h
  unfold mod_health
  split
  · exact ⟨h1, h2, h3, h4⟩
  · dsimp only
    split <;>
      exact ⟨bounded_lower _ _ _, bounded_upper _ _ _ hst, h3, h4⟩

theorem mod_energy_bounds (stamina a : ℚ) (s : OrgState) (h : StateBounds stamina s) :
    StateBounds stamina (mod_energy a s) := by
  obtain ⟨h1, h2, h3, h4⟩ := h
  unfold mod_energy
  split
  · exact ⟨h1, h2, h3, h4⟩
  · dsimp only
    split <;>
      exact ⟨h1, h2, bounded_lower _ _ _, bounded_upper _ _ _ (by norm_num)⟩

theorem applyOp_bounds (resistance stamina : ℚ) (hst : 0 ≤ stamina)
    (op : EntityOp) (s : OrgState) (h : StateBounds stamina s) :
    StateBounds stamina (applyOp resistance stamina op s) := by
  cases op with
  | modHealth a => exact mod_health_bounds resistance stamina a hst s h
  | modEnergy a => exact mod_energy_bounds stamina a s h

theorem runOps_bounds (resistance stamina : ℚ) (hst : 0 ≤ stamina)
    (ops : List EntityOp) (s : OrgState) (h : StateBounds stamina s) :
    StateBounds stamina (runOps resistance stamina ops s) := by
  induction ops generalizing s with
  | nil => exact h
  | cons op rest ih =>
    exact ih _ (applyOp_bounds resistance stamina hst op s h)

theorem mod_health_intact_mono (resistance stamina a : ℚ) (s : OrgState)
    (h : (mod_health resistance stamina a s).intact = true) : s.intact = true := by
  by_contra hs
  simp only [Bool.not_eq_true] at hs
  rw [mod_health, if_pos hs] at h
  rw [hs] at h
  exact Bool.false_ne_true h

theorem applyOp_intact_mono (resistance stamina : ℚ) (op : EntityOp) (s : OrgState)
    (h : (applyOp resistance stamina op s).intact = true) : s.intact = true := by
  cases op with
  | modHealth a => exact mod_health_intact_mono resistance stamina a s h
  | modEnergy a =>
    by_contra hs
    simp only [Bool.not_eq_true] at hs
    simp only [applyOp, mod_energy] at h
    split at h
    · rw [hs] at h; exact Bool.false_ne_true h
    · split at h <;> simp_all

theorem applyOp_conscious_mono (resistance stamina : ℚ) (op : EntityOp) (s : OrgState)
    (h : (applyOp resistance stamina op s).conscious = true) : s.conscious = true := by
  cases op with
  | modHealth a =>
    by_contra hs
    simp only [Bool.not_eq_true] at hs
    simp only [applyOp, mod_health] at h
    split at h
    · rw [hs] at h; exact Bool.false_ne_true h
    · split at h <;> simp_all
  | modEnergy a =>
    by_contra hs
    simp only [Bool.not_eq_true] at hs
    simp only [applyOp, mod_energy, if_pos hs] at h
    rw [hs] at h
    exact Bool.false_ne_true h

/-- Claim C3: from the initial state, under every sequence of
`mod_health`/`mod_energy` operations (which includes attack damage, action
energy costs and `Organism.tick`'s metabolism/regeneration calls), health
stays within `[0, stamina]` and energy within `[0, 100]`; once `intact`
(resp. `conscious`) is false no operation makes it true again, so each flag
flips at most once; and a `mod_health` (resp. `mod_energy`) call on an
intact (conscious) state flips the flag exactly when the clamped value
reaches 0. -/
theorem entity_state_invariants (resistance stamina : ℚ) (hst : 1 ≤ stamina)
    (ops : List EntityOp) :
    StateBounds stamina (runOps resistance stamina ops (initState stamina))
    ∧ (∀ (op : EntityOp) (s : OrgState),
        ((applyOp resistance stamina op s).intact = true → s.intact = true)
        ∧ ((applyOp resistance stamina op s).conscious = true → s.conscious = true))
    ∧ (∀ (a : ℚ) (s : OrgState), s.intact = true →
        ((mod_health resistance stamina a s).intact = false
          ↔ (mod_health resistance stamina a s).health = 0))
    ∧ (∀ (a : ℚ) (s : OrgState), s.conscious = true →
        ((mod_energy a s).conscious = false ↔ (mod_energy a s).energy = 0)) := by
  refine ⟨?_, ?_, ?_, ?_⟩
  · refine runOps_bounds resistance stamina (by linarith) ops _ ?_
    unfold StateBounds initState
    norm_num
    linarith
  · intro op s
    exact ⟨applyOp_intact_mono resistance stamina op s,
      applyOp_conscious_mono resistance stamina op s⟩
  · intro a s hs
    have hs' : ¬ (s.intact = false) := by simp [hs]
    rw [mod_health, if_neg hs']
    dsimp only
    split
    · rename_i h
      simp [h]
    · rename_i h
      simp [hs, h]
  · intro a s hs
    have hs' : ¬ (s.conscious = false) := by simp [hs]
    rw [mod_energy, if_neg hs']
    dsimp only
    split
    · rename_i h
      simp [h]
    · rename_i h
      simp [hs, h]

/-- Claim C3 witness: the invariants instantiated on a concrete entity
(resistance 1, stamina 20) and a concrete operation sequence. -/
theorem entity_state_invariants_witness :
    (1 : ℚ) ≤ 20
    ∧ StateBounds 20 (runOps 1 20
        [EntityOp.modHealth (-50), EntityOp.modEnergy (-30)] (initState 20)) :=
  ⟨by norm_num,
    (entity_state_invariants 1 20 (by norm_num)
      [EntityOp.modHealth (-50), EntityOp.modEnergy (-30)]).1⟩

theorem Action.runCalls_succ (cost : ℚ) (n : Nat) (p : ActionState × OrgState) :
    Action.runCalls cost (n + 1) p
      = ((Action.tickCall cost (Action.runCalls cost n p).1
            (Action.runCalls cost n p).2).1,
         (Action.tickCall cost (Action.runCalls cost n p).1
            (Action.runCalls cost n p).2).2.1) := by
  have h := Action.runCalls_add cost n 1 p
  simpa [Action.runCalls] using h

/-- Claim C2 counterexample: an `Action` with delay 1 whose effect costs 10
energy, ticked twice on a fresh organism state (energy 100): the first call
executes the effect (energy 90, reported done), and a second call to
`Action.tick` executes the effect AGAIN (energy 80, executed flag true) —
the `Action` object has no completion latch, refuting "from that call
onward the Action never executes the effect again". -/
theorem action_tick_reexecution_counterexample :
    (Action.runCalls 10 1 (⟨1, 0⟩, initState 20)).2.energy = 90
    ∧ (Action.runCalls 10 2 (⟨1, 0⟩, initState 20)).2.energy = 80
    ∧ (Action.tickCall 10 (Action.runCalls 10 1 (⟨1, 0⟩, initState 20)).1
        (Action.runCalls 10 1 (⟨1, 0⟩, initState 20)).2).2.2 = true := by
  refine ⟨?_, ?_, ?_⟩ <;>
    norm_num [Action.runCalls, Action.tickCall, mod_energy, bounded, initState]

/-- Claim C2 (amended): for an `Action` with delay `d`, calls of
`Action.tick` numbered below `d` never invoke the execution effect and
return "not done" with the entity state untouched; the `d`-th call invokes
the effect and debits its cost via `mod_energy(-cost)`, returning "done"; a
delay of 0 executes on the first tick; however the `Action` has no
completion latch: every call from the `d`-th onward invokes the effect
(the `Entity.tick` caller discards a done `Action`, which is what prevents
re-execution in the simulation loop). -/
theorem action_tick_schedule (cost : ℚ) (d : Nat) (s0 : OrgState) :
    (∀ n, n < d → Action.runCalls cost n (⟨d, 0⟩, s0) = (⟨d, n⟩, s0))
    ∧ (∀ (n : Nat) (s : OrgState), n + 1 < d →
        (Action.tickCall cost ⟨d, n⟩ s).2.2 = false
        ∧ (Action.tickCall cost ⟨d, n⟩ s).2.1 = s)
    ∧ (0 < d →
        Action.runCalls cost d (⟨d, 0⟩, s0) = (⟨d, d⟩, mod_energy (-cost) s0))
    ∧ (Action.tickCall cost ⟨0, 0⟩ s0).2.2 = true
    ∧ (∀ (n : Nat) (s : OrgState), d ≤ n + 1 →
        (Action.tickCall cost ⟨d, n⟩ s).2.2 = true
        ∧ (Action.tickCall cost ⟨d, n⟩ s).2.1 = mod_energy (-cost) s) := by
  refine ⟨?_, ?_, ?_, ?_, ?_⟩
  · intro n hn
    simpa using Action.runCalls_lt cost d n 0 s0 (by omega)
  · intro n s hn
    constructor <;> · simp only [Action.tickCall]; rw [if_neg (by omega)]
  · intro hd
    obtain ⟨k, rfl⟩ : ∃ k, d = k + 1 := ⟨d - 1, by omega⟩
    rw [Action.runCalls_succ]
    have h1 : Action.runCalls cost k (⟨k + 1, 0⟩, s0) = (⟨k + 1, k⟩, s0) := by
      simpa using Action.runCalls_lt cost (k + 1) k 0 s0 (by omega)
    rw [h1]
    simp [Action.tickCall]
  · simp [Action.tickCall]
  · intro n s hn
    constructor <;> · simp only [Action.tickCall]; rw [if_pos (by omega)]

/-- Claim C2 witness: the amended schedule instantiated at delay 2, cost 10:
one call is not done and leaves the state alone; the second call executes
and debits the cost. -/
theorem action_tick_schedule_witness :
    Action.runCalls 10 1 (⟨2, 0⟩, initState 20) = (⟨2, 1⟩, initState 20)
    ∧ Action.runCalls 10 2 (⟨2, 0⟩, initState 20)
        = (⟨2, 2⟩, mod_energy (-10) (initState 20)) :=
  ⟨(action_tick_schedule 10 2 (initState 20)).1 1 (by norm_num),
   (action_tick_schedule 10 2 (initState 20)).2.2.1 (by norm_num)⟩

/-- `math.floor(self.p.attack_strength / 8)` in `Attack.attack`. -/
def attack_maxv (strength : ℤ) : ℤ :=
  Int.fdiv strength 8

/-- `maxv - math.ceil(maxv / 2)` in `Attack.attack` (integer ceiling of
`maxv / 2` is `(maxv + 1).fdiv 2`). -/
def attack_minv (strength : ℤ) : ℤ :=
  attack_maxv strength - Int.fdiv (attack_maxv strength + 1) 2

/-- The execution effect built by `Attack.attack(dest, target)`
(`entity/bases.py`), parametrised by the three random draws it makes:
`r5 = random.randint(0, 5)`, `rollv = random.random() * limit` inside
`utils.roll` (so `rollv ∈ [0, 100)`), and
`rp = random.randint(-minv, maxv)`.  `utils.roll(p)` is `p > rollv`, and
the effect misses (`if not utils.roll(hit_chance)`) exactly when
`hit_chance ≤ rollv`, charging `attack_cost` and touching nothing; on a hit
it computes `power = max(1, attack_strength + rp)`,
`damage = power * (100 - target.resistance) / 100`, and applies
`target.mod_health(-damage)`.  Returns the updated target state and the
energy cost the effect reports. -/
def attack_execute (attack_skill attack_strength attack_cost agility
    resistance stamina : ℤ) (r5 : ℤ) (rollv : ℚ) (rp : ℤ)
    (target : OrgState) : OrgState × ℤ :=
  let hit_chance : ℤ := min 0 ((agility - attack_skill) * 3) + r5
  if ¬ (rollv < (hit_chance : ℚ)) then (target, attack_cost)
  else
    let power : ℤ := max 1 (attack_strength + rp)
    let defense : ℚ := (100 - (resistance : ℚ)) / 100
    let damage : ℚ := (power : ℚ) * defense
    (mod_health (resistance : ℚ) (stamina : ℚ) (-damage) target, attack_cost)

/-- Claim C1 counterexample: attack with `attack_skill = 1`,
`attack_strength = 8`, `attack_cost = 5` against an intact target with
`agility = 1`, `resistance = 0`, `stamina = 20`, health 20; the random
draws give `hit_chance = min(0, 0) + 5 = 5` and the roll is 2.  The roll
falls below the computed chance, and the attack is a HIT: health drops from
20 to 12 — refuting "for every execution in which the roll falls below the
computed chance, the attack is a miss ... no damage is applied". -/
theorem attack_roll_below_chance_hits_counterexample :
    (2 : ℚ) < ((min 0 ((1 - 1) * 3) + 5 : ℤ) : ℚ)
    ∧ (attack_execute 1 8 5 1 0 20 5 2 0 (initState 20)).1.health = 12
    ∧ (attack_execute 1 8 5 1 0 20 5 2 0 (initState 20)).2 = 5 := by
  refine ⟨by norm_num, ?_, ?_⟩ <;>
    norm_num [attack_execute, mod_health, bounded, initState]

/-- Claim C1 (amended): the hit chance is
`min(0, (target.agility - attack_skill) * 3) + uniform(0, 5)` compared
against a uniform roll over `[0, 100)`; a roll AT OR ABOVE the computed
chance is a miss (the cost is charged and the target is untouched), and a
roll strictly below the chance is a hit (the damage branch runs, applying
`target.mod_health(-power * (100 - resistance) / 100)`). -/
theorem attack_hit_miss_direction (attack_skill attack_strength attack_cost
    agility resistance stamina r5 rp : ℤ) (rollv : ℚ) (target : OrgState) :
    (((min 0 ((agility - attack_skill) * 3) + r5 : ℤ) : ℚ) ≤ rollv →
      attack_execute attack_skill attack_strength attack_cost agility
        resistance stamina r5 rollv rp target = (target, attack_cost))
    ∧ (rollv < ((min 0 ((agility - attack_skill) * 3) + r5 : ℤ) : ℚ) →
      attack_execute attack_skill attack_strength attack_cost agility
        resistance stamina r5 rollv rp target
        = (mod_health (resistance : ℚ) (stamina : ℚ)
            (-(((max 1 (attack_strength + rp) : ℤ) : ℚ)
               * ((100 - (resistance : ℚ)) / 100))) target, attack_cost)) := by
  constructor
  · intro h
    rw [attack_execute, if_pos (not_lt.mpr h)]
  · intro h
    rw [attack_execute, if_neg (not_not.mpr h)]

/-- Claim C1 witness: a concrete miss — `hit_chance = min(0, -27) + 3 =
-24`, roll 50: the cost is charged and the target untouched. -/
theorem attack_hit_miss_direction_witness :
    ((min 0 ((1 - 10) * 3) + 3 : ℤ) : ℚ) ≤ 50
    ∧ attack_execute 10 18 5 1 35 85 3 50 0 (initState 85)
        = (initState 85, 5) :=
  ⟨by norm_num,
   (attack_hit_miss_direction 10 18 5 1 35 85 3 0 50 (initState 85)).1
     (by norm_num)⟩

/-- Claim C9: on a hit against an intact target, the damage passed to
`mod_health` is `power * (100 - resistance) / 100`, and `mod_health` scales
it by `(100 - resistance) / 100` a second time, so the target's health is
clamped from `health - power * ((100 - resistance) / 100)^2`; whenever
`0 < resistance < 100` the squared factor strictly shrinks the reduction
relative to a single application. -/
theorem attack_applies_resistance_twice (attack_skill attack_strength
    attack_cost agility resistance stamina r5 rp : ℤ) (rollv : ℚ)
    (target : OrgState) (hintact : target.intact = true)
    (hhit : rollv < ((min 0 ((agility - attack_skill) * 3) + r5 : ℤ) : ℚ)) :
    ((attack_execute attack_skill attack_strength attack_cost agility
        resistance stamina r5 rollv rp target).1.health
      = bounded (target.health
          - ((max 1 (attack_strength + rp) : ℤ) : ℚ)
            * ((100 - (resistance : ℚ)) / 100) ^ 2) 0 (stamina : ℚ))
    ∧ (0 < resistance → resistance < 100 →
        ((max 1 (attack_strength + rp) : ℤ) : ℚ)
            * ((100 - (resistance : ℚ)) / 100) ^ 2
          < ((max 1 (attack_strength + rp) : ℤ) : ℚ)
            * ((100 - (resistance : ℚ)) / 100)) := by
  constructor
  · rw [attack_execute, if_neg (not_not.mpr hhit)]
    dsimp only
    rw [mod_health, if_neg (by simp [hintact])]
    dsimp only
    have harith :
        target.health
          + -(((max 1 (attack_strength + rp) : ℤ) : ℚ)
              * ((100 - (resistance : ℚ)) / 100))
            * ((100 - (resistance : ℚ)) / 100)
        = target.health
          - ((max 1 (attack_strength + rp) : ℤ) : ℚ)
            * ((100 - (resistance : ℚ)) / 100) ^ 2 := by ring
    rw [harith]
    split <;> rfl
  · intro h1 h2
    have hppos : (0 : ℚ) < ((max 1 (attack_strength + rp) : ℤ) : ℚ) := by
      have h : (1 : ℤ) ≤ max 1 (attack_strength + rp) := le_max_left _ _
      exact_mod_cast lt_of_lt_of_le zero_lt_one h
    have hq0 : (0 : ℚ) < (100 - (resistance : ℚ)) / 100 := by
      have h : (resistance : ℚ) < 100 := by exact_mod_cast h2
      have : (0 : ℚ) < 100 - (resistance : ℚ) := by linarith
      positivity
    have hq1 : (100 - (resistance : ℚ)) / 100 < 1 := by
      have h : (0 : ℚ) < (resistance : ℚ) := by exact_mod_cast h1
      rw [div_lt_one (by norm_num)]
      linarith
    have hsq : ((100 - (resistance : ℚ)) / 100) ^ 2
        < (100 - (resistance : ℚ)) / 100 := by
      nlinarith [hq0, hq1]
    exact mul_lt_mul_of_pos_left hsq hppos

/-- Claim C9 witness: the shambler's slam (`attack_strength = 18`) against
an intact target with `resistance = 35`, `stamina = 85`: the double scaling
instantiated concretely. -/
theorem attack_applies_resistance_twice_witness :
    (initState 85).intact = true
    ∧ (2 : ℚ) < ((min 0 ((10 - 10) * 3) + 5 : ℤ) : ℚ)
    ∧ (attack_execute 10 18 5 10 35 85 5 2 0 (initState 85)).1.health
        = bounded ((initState 85).health
            - ((max 1 (18 + 0) : ℤ) : ℚ) * ((100 - ((35 : ℤ) : ℚ)) / 100) ^ 2)
            0 ((85 : ℤ) : ℚ) :=
  ⟨rfl, by norm_num,
   (attack_applies_resistance_twice 10 18 5 10 35 85 5 0 2 (initState 85)
      rfl (by norm_num)).1⟩

/-- `Sense.sense(task, origin, world)` (`entity/bases.py`): performs
`self.scan(...)` when `rescan_prob <= random.random() * 100` (with the roll
`rollv ∈ [0, 100)`) and otherwise falls through, returning `None` (modelled
as `none`) and leaving the sensing memory untouched.  `mem` is the current
sensing memory and `scanResult` the memory and changed-flag that `scan`
would produce on this call. -/
def sense {α : Type} (rescan_prob rollv : ℚ) (mem : α)
    (scanResult : α × Bool) : α × Option Bool :=
  if rescan_prob ≤ rollv then (scanResult.1, some scanResult.2)
  else (mem, none)

/-- Claim C6 counterexample: with a roll of 50, `rescan_prob = 100` SKIPS
the scan (stale memory kept) and `rescan_prob = 0` PERFORMS it — the exact
opposite of "with rescan_prob = 100 every call performs the scan and with
rescan_prob = 0 no call performs the scan". -/
theorem sense_probability_counterexample :
    sense (100 : ℚ) 50 (0 : ℕ) (1, true) = (0, none)
    ∧ sense (0 : ℚ) 50 (0 : ℕ) (1, true) = (1, some true) := by
  constructor <;> norm_num [sense]

/-- Claim C6 (amended): `sense` performs the full scan exactly when
`rescan_prob ≤ roll`, i.e. with probability `(100 - rescan_prob)` percent,
and otherwise keeps the stale memory; consequently `rescan_prob = 0` scans
on every call and `rescan_prob = 100` never scans (the roll is strictly
below 100). -/
theorem sense_scan_gate {α : Type} (rescan_prob rollv : ℚ) (mem : α)
    (scanResult : α × Bool) (h0 : 0 ≤ rollv) (h1 : rollv < 100) :
    (sense rescan_prob rollv mem scanResult
        = (scanResult.1, some scanResult.2) ↔ rescan_prob ≤ rollv)
    ∧ (rescan_prob = 0 →
        sense rescan_prob rollv mem scanResult
          = (scanResult.1, some scanResult.2))
    ∧ (rescan_prob = 100 →
        sense rescan_prob rollv mem scanResult = (mem, none)) := by
  refine ⟨?_, ?_, ?_⟩
  · by_cases hpr : rescan_prob ≤ rollv
    · simp [sense, hpr]
    · simp [sense, hpr, Prod.ext_iff]
  · intro h
    rw [sense, if_pos (by rw [h]; exact h0)]
  · intro h
    rw [sense, if_neg (by rw [h]; exact not_le.mpr h1)]

/-- Claim C6 witness: the gate instantiated at a concrete roll of 50 with
concrete memory values. -/
theorem sense_scan_gate_witness :
    (0 : ℚ) ≤ 50 ∧ (50 : ℚ) < 100
    ∧ (sense (30 : ℚ) 50 (0 : ℕ) (1, true) = (1, some true) ↔ (30 : ℚ) ≤ 50) :=
  ⟨by norm_num, by norm_num,
   (sense_scan_gate 30 50 (0 : ℕ) (1, true) (by norm_num) (by norm_num)).1⟩

/-- An entity as the World/Cell spatial index sees it: a process-unique id
(`uuid4` modelled as a `Nat`), the class-level `name`, the `is_player`
attribute and the `traversable` flag.  `is_player` is an `Option Bool`
because in the source only `Player` defines `is_player` (= `True`); the
`Entity` base class defines `player_controlled` instead, so looking up
`is_player` on every other entity class in the repository raises
`AttributeError` — modelled as `none`.  `some false` is the value an
entity class would carry if it defined `is_player = False`; no repository
class does. -/
structure WEntity where
  id : Nat
  name : String
  is_player : Option Bool
  traversable : Bool
deriving DecidableEq, Repr

/-- The exceptions of `world/exceptions.py` that the spatial index raises,
plus two Python builtins that escape from it and are NOT part of the
`WorldError` family: `KeyError` (from `dict.pop` / `set.remove`) and
`AttributeError` (from reading the `is_player` attribute that non-player
entity classes do not define). -/
inductive WErr
  | outOfBounds (p : Point)
  | entityNotFound (p : Point) (eid : Nat)
  | cellIsOccupied (p : Point)
  | keyError
  | attributeError
deriving DecidableEq, Repr

/-- `Cell`: the floor entities in insertion order (the values of the
`OrderedDict` keyed by entity id) plus at most one non-traversable
occupant, at a fixed point. -/
structure Cell where
  point : Point
  floor : List WEntity
  occupant : Option WEntity
deriving DecidableEq, Repr

def Cell.mkEmpty (p : Point) : Cell :=
  ⟨p, [], none⟩

/-- `OrderedDict.__setitem__` on `_floor` keyed by `entity.id`: replace the
entry in place when the id is present, append otherwise. -/
def floorSet (l : List WEntity) (e : WEntity) : List WEntity :=
  if l.any (fun x => x.id == e.id) then
    l.map (fun x => if x.id == e.id then e else x)
  else l ++ [e]

/-- `Cell.add(entity)`: a non-traversable entity becomes the occupant,
raising `CellIsOccupiedError(self.point, entity)` if one is already there
(changing nothing); a traversable entity goes into the floor dict. -/
def Cell.add (c : Cell) (e : WEntity) : Cell × Option WErr :=
  if e.traversable = false then
    match c.occupant with
    | some _ => (c, some (WErr.cellIsOccupied c.point))
    | none => ({ c with occupant := some e }, none)
  else ({ c with floor := floorSet c.floor e }, none)

/-- `self._floor.pop(entity_id)` under `try/except KeyError`: remove the
entry when present, else `EntityNotFoundError(self.point, entity_id)` with
the floor unchanged. -/
def floorPop (c : Cell) (eid : Nat) : Cell × Except WErr WEntity :=
  match c.floor.find? (fun x => x.id == eid) with
  | some e =>
    ({ c with floor := c.floor.filter (fun x => !(x.id == eid)) }, Except.ok e)
  | none => (c, Except.error (WErr.entityNotFound c.point eid))

/-- `Cell.pop(entity_id)`: the occupant is removed when its id matches,
otherwise the floor dict is popped. -/
def Cell.pop (c : Cell) (eid : Nat) : Cell × Except WErr WEntity :=
  match c.occupant with
  | some o =>
    if eid = o.id then ({ c with occupant := none }, Except.ok o)
    else floorPop c eid
  | none => floorPop c eid

/-- `Cell.__len__`: floor count plus `bool(occupant)`. -/
def Cell.len (c : Cell) : Nat :=
  c.floor.length + (if c.occupant.isSome then 1 else 0)

/-- `Cell.__iter__`: the floor entities in order, then the occupant. -/
def Cell.entities (c : Cell) : List WEntity :=
  c.floor ++ (match c.occupant with | some o => [o] | none => [])

/-- The mutations available on a `Cell` (`add` from `Cell.add`/`__init__`,
`pop` from `Cell.pop` via `World.remove`). -/
inductive CellOp
  | add (e : WEntity)
  | pop (eid : Nat)

/-- Run a sequence of cell mutations, keeping the (possibly unchanged on
error) cell each returns. -/
def Cell.runOps : List CellOp → Cell → Cell
  | [], c => c
  | .add e :: ops, c => Cell.runOps ops (Cell.add c e).1
  | .pop i :: ops, c => Cell.runOps ops (Cell.pop c i).1

/-- Every floor entity of a reachable cell is traversable. -/
def FloorTraversable (c : Cell) : Prop :=
  ∀ e ∈ c.floor, e.traversable = true

theorem floorTraversable_add (c : Cell) (e : WEntity)
    (h : FloorTraversable c) : FloorTraversable (Cell.add c e).1 := by
  unfold Cell.add
  split
  · rename_i ht
    match hc : c.occupant with
    | some _ => exact h
    | none => exact h
  · rename_i ht
    simp only [Bool.not_eq_false] at ht
    intro x hx
    unfold floorSet at hx
    split at hx
    · simp only [List.mem_map] at hx
      obtain ⟨y, hy, hxy⟩ := hx
      by_cases hid : (y.id == e.id) = true
      · rw [if_pos hid] at hxy; rw [← hxy]; exact ht
      · rw [if_neg hid] at hxy; rw [← hxy]; exact h y hy
    · rcases List.mem_append.mp hx with hy | hy
      · exact h x hy
      · rw [List.mem_singleton.mp hy]; exact ht

theorem floorTraversable_pop (c : Cell) (i : Nat)
    (h : FloorTraversable c) : FloorTraversable (Cell.pop c i).1 := by
  have hfp : FloorTraversable (floorPop c i).1 := by
    unfold floorPop
    split
    · intro x hx
      exact h x (List.mem_of_mem_filter hx)
    · exact h
  unfold Cell.pop
  split
  · split
    · exact h
    · exact hfp
  · exact hfp

theorem floorTraversable_runOps (ops : List CellOp) (c : Cell)
    (h : FloorTraversable c) : FloorTraversable (Cell.runOps ops c) := by
  induction ops generalizing c with
  | nil => exact h
  | cons op rest ih =>
    cases op with
    | add e => exact ih _ (floorTraversable_add c e h)
    | pop i => exact ih _ (floorTraversable_pop c i h)

/-- Claim C4: a cell reachable from empty by `add`/`pop` never holds more
than one non-traversable entity; adding a non-traversable entity to a cell
that already has an occupant yields `CellIsOccupiedError` and leaves the
cell (occupant and floor) unchanged; and the total entity count always
equals the floor count plus 1 when an occupant is present, else plus 0. -/
theorem cell_occupancy_invariant (p : Point) (ops : List CellOp) :
    ((Cell.entities (Cell.runOps ops (Cell.mkEmpty p))).countP
        (fun e => !e.traversable) ≤ 1)
    ∧ (∀ (c : Cell) (e : WEntity), e.traversable = false →
        c.occupant.isSome = true →
        Cell.add c e = (c, some (WErr.cellIsOccupied c.point)))
    ∧ (∀ c : Cell, (Cell.entities c).length = Cell.len c) := by
  refine ⟨?_, ?_, ?_⟩
  · have hft : FloorTraversable (Cell.runOps ops (Cell.mkEmpty p)) :=
      floorTraversable_runOps ops _ (by intro e he; simp [Cell.mkEmpty] at he)
    set c := Cell.runOps ops (Cell.mkEmpty p) with hc
    rw [Cell.entities, List.countP_append]
    have h0 : c.floor.countP (fun e => !e.traversable) = 0 := by
      rw [List.countP_eq_zero]
      intro a ha
      simp [hft a ha]
    rw [h0]
    match c.occupant with
    | some o =>
      rw [List.countP_cons]
      simp only [List.countP_nil, Nat.zero_add]
      split <;> omega
    | none => simp
  · intro c e ht hocc
    rw [Cell.add, if_pos ht]
    match hc : c.occupant with
    | some o => rfl
    | none => rw [hc] at hocc; simp at hocc
  · intro c
    cases hc : c.occupant <;> simp [Cell.entities, Cell.len, hc]

/-- Claim C4 witness: the invariants instantiated on a concretely built
cell and a concrete occupied-cell rejection. -/
theorem cell_occupancy_invariant_witness :
    ((Cell.entities (Cell.runOps
        [CellOp.add ⟨2, "grass", none, true⟩,
         CellOp.add ⟨1, "stone pillar", none, false⟩]
        (Cell.mkEmpty ⟨0, 0⟩))).countP (fun e => !e.traversable) ≤ 1)
    ∧ Cell.add ⟨⟨0, 0⟩, [], some ⟨1, "stone pillar", none, false⟩⟩
        ⟨3, "wandering shrub", none, false⟩
      = (⟨⟨0, 0⟩, [], some ⟨1, "stone pillar", none, false⟩⟩,
         some (WErr.cellIsOccupied ⟨0, 0⟩)) :=
  ⟨(cell_occupancy_invariant ⟨0, 0⟩
      [CellOp.add ⟨2, "grass", none, true⟩,
       CellOp.add ⟨1, "stone pillar", none, false⟩]).1,
   (cell_occupancy_invariant ⟨0, 0⟩ []).2.1
     ⟨⟨0, 0⟩, [], some ⟨1, "stone pillar", none, false⟩⟩
     ⟨3, "wandering shrub", none, false⟩ rfl rfl⟩

/-- Python list indexing: a nonnegative index in range selects normally; a
negative index wraps around from the end (`l[-1]` is the last element);
anything else is an `IndexError` (here `none`). -/
def pyIdx (n : Nat) (i : Int) : Option Nat :=
  if 0 ≤ i then (if i < (n : Int) then some i.toNat else none)
  else (if 0 ≤ i + (n : Int) then some (i + (n : Int)).toNat else none)

/-- `l[i]` on a Python list. -/
def pyGet {α : Type} (l : List α) (i : Int) : Option α :=
  (pyIdx l.length i).bind (fun k => l.get? k)

/-- `l[i] = a` on a Python list (no-op on the `IndexError` paths, which the
callers below never reach after a successful read). -/
def pySet {α : Type} (l : List α) (i : Int) (a : α) : List α :=
  match pyIdx l.length i with
  | some k => l.set k a
  | none => l

/-- `d[k] = v` on a Python dict, modelled as an insertion-ordered
association list: replace in place or append. -/
def pySetItem {κ β : Type} [DecidableEq κ] (m : List (κ × β)) (k : κ) (v : β) :
    List (κ × β) :=
  if m.any (fun kv => decide (kv.1 = k)) then
    m.map (fun kv => if kv.1 = k then (k, v) else kv)
  else m ++ [(k, v)]

/-- `d[k]` / `d.get(k)` on a Python dict. -/
def pyGetItem {κ β : Type} [DecidableEq κ] (m : List (κ × β)) (k : κ) : Option β :=
  (m.find? (fun kv => decide (kv.1 = k))).map (fun kv => kv.2)

/-- `d.pop(k)` on a Python dict: the value and the shrunk dict, or `none`
for the `KeyError` case. -/
def pyPopItem {κ β : Type} [DecidableEq κ] (m : List (κ × β)) (k : κ) :
    Option (β × List (κ × β)) :=
  match pyGetItem m k with
  | some v => some (v, m.filter (fun kv => !decide (kv.1 = k)))
  | none => none

/-- `entity_name_map[name].add(id)` where `entity_name_map` is a
`defaultdict(set)`: look up (or create) the id set for `name` and insert
the id. -/
def nameMapAdd (m : List (String × List Nat)) (n : String) (i : Nat) :
    List (String × List Nat) :=
  let cur := (pyGetItem m n).getD []
  pySetItem m n (if i ∈ cur then cur else cur ++ [i])

/-- `entity_name_map[name].remove(id)`: `set.remove` raises `KeyError` when
the id is absent; the `defaultdict` access has already materialised the
(possibly empty) entry either way. -/
def nameMapRemove (m : List (String × List Nat)) (n : String) (i : Nat) :
    List (String × List Nat) × Option WErr :=
  let cur := (pyGetItem m n).getD []
  if i ∈ cur then (pySetItem m n (cur.erase i), none)
  else (pySetItem m n cur, some WErr.keyError)

/-- `World` (`world/world.py`): fixed-size grid of cells, the
name-to-id-set index, the id-to-(point, entity) index, and the
distinguished player/position slots. -/
structure World where
  width : Nat
  height : Nat
  grid : List (List Cell)
  entity_name_map : List (String × List Nat)
  entity_id_map : List (Nat × (Point × WEntity))
  player : Option WEntity
  player_pos : Option Point
deriving DecidableEq, Repr

/-- `World.__init__(width, height)`: empty cells at every point, empty
indices. -/
def mkWorld (width height : Nat) : World :=
  { width := width, height := height,
    grid := (List.range height).map (fun y =>
      (List.range width).map (fun x => Cell.mkEmpty ⟨(x : Int), (y : Int)⟩)),
    entity_name_map := [], entity_id_map := [],
    player := none, player_pos := none }

/-- `self.grid[point.y][point.x]` with Python indexing at both levels. -/
def gridGet (g : List (List Cell)) (p : Point) : Option Cell :=
  (pyGet g p.y).bind (fun row => pyGet row p.x)

/-- Writing the cell back at the slot `self.grid[point.y][point.x]`
denotes (the Python code mutates the `Cell` object in place; the model
rebuilds the grid at the same slot). -/
def gridSet (g : List (List Cell)) (p : Point) (c : Cell) : List (List Cell) :=
  match pyIdx g.length p.y with
  | some ky =>
    match g.get? ky with
    | some row => g.set ky (pySet row p.x c)
    | none => g
  | none => g

/-- `World.get_cell(point)`: `self.grid[point.y][point.x]` under
`try/except IndexError`, the `IndexError` becoming
`OutOfBoundsError(point)`. -/
def World.get_cell (w : World) (p : Point) : Except WErr Cell :=
  match gridGet w.grid p with
  | some c => Except.ok c
  | none => Except.error (WErr.outOfBounds p)

/-- `World.in_bounds(point)`:
`0 <= point.x < self.width and 0 <= point.y < self.height`. -/
def World.in_bounds (w : World) (p : Point) : Bool :=
  decide (0 ≤ p.x ∧ p.x < (w.width : Int) ∧ 0 ≤ p.y ∧ p.y < (w.height : Int))

/-- Claim C5 (code evaluation): on a 2-by-2 world, the point (-1, 0) is out
of bounds by the world's own `in_bounds` test, yet `get_cell` does NOT
raise `OutOfBoundsError`: Python's negative indexing wraps `grid[0][-1]`
around to the cell at (1, 0).  Far-out coordinates (x >= width here) do
raise `OutOfBoundsError`. -/
theorem get_cell_negative_wraparound :
    World.in_bounds (mkWorld 2 2) ⟨-1, 0⟩ = false
    ∧ World.get_cell (mkWorld 2 2) ⟨-1, 0⟩ = Except.ok (Cell.mkEmpty ⟨1, 0⟩)
    ∧ World.get_cell (mkWorld 2 2) ⟨2, 0⟩
        = Except.error (WErr.outOfBounds ⟨2, 0⟩)
    ∧ World.get_cell (mkWorld 2 2) ⟨0, -2⟩ = Except.ok (Cell.mkEmpty ⟨0, 0⟩)
    ∧ World.get_cell (mkWorld 2 2) ⟨0, -3⟩
        = Except.error (WErr.outOfBounds ⟨0, -3⟩) :=
  ⟨by decide, rfl, rfl, rfl, rfl⟩



/-- The index updates `World.add(point, entity)` performs before touching
the cell, once the `entity.is_player` guard has evaluated: the player
slots (guard truthy) or the name index (guard falsy), and then the id
index. -/
def World.addIndices (w : World) (p : Point) (e : WEntity) : World :=
  if e.is_player = some true then
    { w with
        player := some e
        player_pos := some p
        entity_id_map := pySetItem w.entity_id_map e.id (p, e) }
  else
    { w with
        entity_name_map := nameMapAdd w.entity_name_map e.name e.id
        entity_id_map := pySetItem w.entity_id_map e.id (p, e) }

/-- `World.add(point, entity)`: the very first statement is the guard
`if entity.is_player:`, which raises `AttributeError` for every entity
class that does not define `is_player` (every repository class except
`Player`) before anything is written.  When the attribute exists, the
player slots or the name index are updated first, then the id index, and
only then the cell — which can still raise, leaving the index updates
behind. -/
def World.add (w : World) (p : Point) (e : WEntity) : World × Option WErr :=
  match e.is_player with
  | none => (w, some WErr.attributeError)
  | some _ =>
    match gridGet (World.addIndices w p e).grid p with
    | none => (World.addIndices w p e, some (WErr.outOfBounds p))
    | some c =>
      match Cell.add c e with
      | (c', none) =>
        ({ World.addIndices w p e with
            grid := gridSet (World.addIndices w p e).grid p c' }, none)
      | (_, some err) => (World.addIndices w p e, some err)

/-- The tail of `World.remove`:
`return self.get_cell(point).pop(entity_id)`. -/
def World.cellPopAt (w : World) (p : Point) (eid : Nat) :
    World × Except WErr WEntity :=
  match gridGet w.grid p with
  | none => (w, Except.error (WErr.outOfBounds p))
  | some c =>
    match Cell.pop c eid with
    | (_, Except.error err) => (w, Except.error err)
    | (c', Except.ok ent) =>
      ({ w with grid := gridSet w.grid p c' }, Except.ok ent)

/-- `World.remove(point, entity_id)`: pop the id index (Python `dict.pop`
raises a bare `KeyError` when the id is unknown), then evaluate the guard
`if info.entity.is_player:` — which raises `AttributeError` for every
entity class not defining `is_player` (every repository class but
`Player`), with the id-index entry already popped.  When the attribute
exists: discard the id from the name index for a truthy guard
(`set.remove`, raising `KeyError` when absent), then pop the cell. -/
def World.remove (w : World) (p : Point) (eid : Nat) :
    World × Except WErr WEntity :=
  match pyPopItem w.entity_id_map eid with
  | none => (w, Except.error WErr.keyError)
  | some (info, m') =>
    match info.2.is_player with
    | none => ({ w with entity_id_map := m' }, Except.error WErr.attributeError)
    | some b =>
      if b then
        match nameMapRemove w.entity_name_map info.2.name eid with
        | (nm, some err) =>
          ({ w with entity_id_map := m', entity_name_map := nm },
           Except.error err)
        | (nm, none) =>
          World.cellPopAt { w with entity_id_map := m', entity_name_map := nm }
            p eid
      else World.cellPopAt { w with entity_id_map := m' } p eid

/-- `World.move(entity_id, src, dest)`: `remove` then `add`, then a third
`entity.is_player` read to refresh the cached player position; exceptions
from any of the three steps propagate. -/
def World.move (w : World) (eid : Nat) (src dest : Point) :
    World × Except WErr WEntity :=
  match World.remove w src eid with
  | (w1, Except.error err) => (w1, Except.error err)
  | (w1, Except.ok ent) =>
    match World.add w1 dest ent with
    | (w2, some err) => (w2, Except.error err)
    | (w2, none) =>
      match ent.is_player with
      | none => (w2, Except.error WErr.attributeError)
      | some b =>
        if b then ({ w2 with player_pos := some dest }, Except.ok ent)
        else (w2, Except.ok ent)

theorem find?_map_replace {κ β : Type} [DecidableEq κ] (k : κ) (v : β) :
    ∀ m : List (κ × β), m.any (fun kv => decide (kv.1 = k)) = true →
      (m.map (fun kv => if kv.1 = k then (k, v) else kv)).find?
        (fun kv => decide (kv.1 = k)) = some (k, v) := by
  intro m
  induction m with
  | nil => intro h; simp at h
  | cons kv rest ih =>
    intro hany
    by_cases hk : kv.1 = k
    · simp [List.find?, hk]
    · have hany' : rest.any (fun kv => decide (kv.1 = k)) = true := by
        simp only [List.any_cons, Bool.or_eq_true, decide_eq_true_eq] at hany
        rcases hany with h | h
        · exact absurd h hk
        · exact h
      simp only [List.map_cons, if_neg hk, List.find?]
      rw [decide_eq_false hk]
      exact ih hany'

theorem find?_append_none {α : Type} (p : α → Bool) :
    ∀ (l l' : List α), l.find? p = none → (l ++ l').find? p = l'.find? p := by
  intro l l'
  induction l with
  | nil => intro _; rfl
  | cons x xs ih =>
    intro h
    rw [List.find?] at h
    rw [List.cons_append, List.find?]
    match hx : p x with
    | true => rw [hx] at h; exact absurd h (by simp)
    | false => rw [hx] at h; exact ih h

theorem pyGetItem_setItem_self {κ β : Type} [DecidableEq κ]
    (m : List (κ × β)) (k : κ) (v : β) :
    pyGetItem (pySetItem m k v) k = some v := by
  rw [pySetItem]
  split
  · rename_i hany
    rw [pyGetItem, find?_map_replace k v m hany]
    rfl
  · rename_i hany
    have hnone : m.find? (fun kv => decide (kv.1 = k)) = none := by
      rw [List.find?_eq_none]
      intro a ha
      by_contra hcon
      simp only [Bool.not_eq_false, decide_eq_true_eq] at hcon
      exact hany (List.any_eq_true.mpr ⟨a, ha, by simp [hcon]⟩)
    rw [pyGetItem, find?_append_none _ m [(k, v)] hnone]
    simp [List.find?]

theorem World.addIndices_grid (w : World) (p : Point) (e : WEntity) :
    (World.addIndices w p e).grid = w.grid := by
  unfold World.addIndices
  split <;> rfl

theorem World.addIndices_idmap (w : World) (p : Point) (e : WEntity) :
    (World.addIndices w p e).entity_id_map
      = pySetItem w.entity_id_map e.id (p, e) := by
  unfold World.addIndices
  split <;> rfl

theorem World.addIndices_player (w : World) (p : Point) (e : WEntity)
    (h : e.is_player = some true) :
    (World.addIndices w p e).player = some e := by
  unfold World.addIndices
  rw [if_pos h]

theorem World.add_attrerror (w : World) (p : Point) (e : WEntity)
    (h : e.is_player = none) :
    World.add w p e = (w, some WErr.attributeError) := by
  unfold World.add
  split
  · rfl
  · rename_i b heq
    rw [h] at heq
    cases heq

theorem World.add_occupied (w : World) (p : Point) (e : WEntity) (c : Cell)
    (o : WEntity) (b : Bool) (hb : e.is_player = some b)
    (htrav : e.traversable = false)
    (hc : gridGet w.grid p = some c) (ho : c.occupant = some o) :
    World.add w p e
      = (World.addIndices w p e, some (WErr.cellIsOccupied c.point)) := by
  have hg : gridGet (World.addIndices w p e).grid p = some c := by
    rw [World.addIndices_grid]; exact hc
  have hadd : Cell.add c e = (c, some (WErr.cellIsOccupied c.point)) := by
    rw [Cell.add, if_pos htrav, ho]
  unfold World.add
  split
  · rename_i heq
    rw [hb] at heq
    cases heq
  · rename_i b' heq
    split
    · rename_i heq2
      rw [hg] at heq2
      cases heq2
    · rename_i c0 heq2
      rw [hg] at heq2
      injection heq2 with heq2
      subst heq2
      split
      · rename_i c' hpair
        rw [hadd] at hpair
        injection hpair with h1 h2
        cases h2
      · rename_i x err hpair
        rw [hadd] at hpair
        injection hpair with h1 h2
        injection h2 with h2
        rw [← h2]

theorem World.cellPopAt_err (w : World) (p : Point) (eid : Nat) (c : Cell)
    (err : WErr) (hc : gridGet w.grid p = some c)
    (hpop : (Cell.pop c eid).2 = Except.error err) :
    World.cellPopAt w p eid = (w, Except.error err) := by
  unfold World.cellPopAt
  split
  · rename_i heq
    rw [hc] at heq
    cases heq
  · rename_i c0 heq
    rw [hc] at heq
    injection heq with heq
    subst heq
    split
    · rename_i x err2 hpair
      rw [hpair] at hpop
      simp only at hpop
      injection hpop with hE
      rw [hE]
    · rename_i c' ent hpair
      rw [hpair] at hpop
      simp only at hpop
      cases hpop

theorem World.remove_keyerror (w : World) (p : Point) (eid : Nat)
    (h : pyGetItem w.entity_id_map eid = none) :
    World.remove w p eid = (w, Except.error WErr.keyError) := by
  have hpop : pyPopItem w.entity_id_map eid = none := by
    rw [pyPopItem, h]
  unfold World.remove
  split
  · rfl
  · rename_i info m' heq
    rw [hpop] at heq
    cases heq

theorem World.remove_attrerror (w : World) (p : Point) (eid : Nat)
    (pt : Point) (ent : WEntity) (m' : List (Nat × (Point × WEntity)))
    (h : pyPopItem w.entity_id_map eid = some ((pt, ent), m'))
    (hnone : ent.is_player = none) :
    World.remove w p eid
      = ({ w with entity_id_map := m' }, Except.error WErr.attributeError) := by
  unfold World.remove
  split
  · rename_i heq
    rw [h] at heq
    cases heq
  · rename_i info m2 heq
    rw [h] at heq
    injection heq with heq
    injection heq with h1 h2
    subst h2
    subst h1
    have hn : ((pt, ent).2).is_player = none := hnone
    split
    · rfl
    · rename_i b heq2
      rw [hn] at heq2
      cases heq2

theorem World.remove_nonplayer (w : World) (p : Point) (eid : Nat)
    (pt : Point) (ent : WEntity) (m' : List (Nat × (Point × WEntity)))
    (h : pyPopItem w.entity_id_map eid = some ((pt, ent), m'))
    (hnp : ent.is_player = some false) :
    World.remove w p eid
      = World.cellPopAt { w with entity_id_map := m' } p eid := by
  unfold World.remove
  split
  · rename_i heq
    rw [h] at heq
    cases heq
  · rename_i info m2 heq
    rw [h] at heq
    injection heq with heq
    injection heq with h1 h2
    subst h2
    subst h1
    have hn : ((pt, ent).2).is_player = some false := hnp
    split
    · rename_i heq2
      rw [hn] at heq2
      cases heq2
    · rename_i b heq2
      rw [hn] at heq2
      injection heq2 with hb
      subst hb
      rw [if_neg (by simp)]

theorem Cell.pop_notfound (c : Cell) (eid : Nat)
    (hocc : ∀ o, c.occupant = some o → eid ≠ o.id)
    (hfl : c.floor.find? (fun x => x.id == eid) = none) :
    Cell.pop c eid = (c, Except.error (WErr.entityNotFound c.point eid)) := by
  have hfp : floorPop c eid
      = (c, Except.error (WErr.entityNotFound c.point eid)) := by
    rw [floorPop, hfl]
  unfold Cell.pop
  split
  · rename_i o heq
    rw [if_neg (hocc o heq)]
    exact hfp
  · exact hfp

/-- Claim C10 counterexample: adding a non-traversable repository
non-player entity (its class does not define `is_player`) onto an occupied
cell raises `AttributeError` at `World.add`'s first statement
`if entity.is_player:` — before the id or name index is written and before
`CellIsOccupiedError` can be reached; the world comes back untouched.  The
claimed "id index and, for non-player entities, name index already
updated when CellIsOccupiedError is raised" scenario therefore cannot
occur for non-player entities. -/
theorem world_add_nonplayer_attrerror_counterexample :
    World.add
      (⟨1, 1, [[⟨⟨0, 0⟩, [], some ⟨1, "stone pillar", none, false⟩⟩]],
        [("stone pillar", [1])],
        [(1, (⟨0, 0⟩, ⟨1, "stone pillar", none, false⟩))],
        none, none⟩ : World)
      ⟨0, 0⟩ ⟨3, "wandering shrub", none, false⟩
    = ((⟨1, 1, [[⟨⟨0, 0⟩, [], some ⟨1, "stone pillar", none, false⟩⟩]],
        [("stone pillar", [1])],
        [(1, (⟨0, 0⟩, ⟨1, "stone pillar", none, false⟩))],
        none, none⟩ : World),
       some WErr.attributeError) := rfl

/-- Claim C10 (amended): only an entity whose class defines `is_player` —
in the repository, only the player — can reach `CellIsOccupiedError` from
`World.add`; when it does, the player slot and the id index have already
been updated to register the rejected entity at that point before the
error surfaces (the failed add is not atomic, leaving an id-index entry
for an entity present in no cell).  Every repository non-player entity
instead raises `AttributeError` at the guard `if entity.is_player:` before
any index is written, leaving the world untouched. -/
theorem world_add_occupied_not_atomic (w : World) (p : Point) (e : WEntity)
    (c : Cell) (htrav : e.traversable = false)
    (hc : gridGet w.grid p = some c) (hocc : c.occupant.isSome = true) :
    (e.is_player = some true →
      (World.add w p e).2 = some (WErr.cellIsOccupied c.point)
      ∧ pyGetItem (World.add w p e).1.entity_id_map e.id = some (p, e)
      ∧ (World.add w p e).1.player = some e
      ∧ (World.add w p e).1.grid = w.grid)
    ∧ (e.is_player = none →
      World.add w p e = (w, some WErr.attributeError)) := by
  constructor
  · intro hb
    obtain ⟨o, ho⟩ := Option.isSome_iff_exists.mp hocc
    rw [World.add_occupied w p e c o true hb htrav hc ho]
    refine ⟨rfl, ?_, ?_, ?_⟩
    · rw [World.addIndices_idmap]
      exact pyGetItem_setItem_self _ _ _
    · exact World.addIndices_player w p e hb
    · exact World.addIndices_grid w p e
  · intro hn
    exact World.add_attrerror w p e hn

/-- Claim C10 witness: the player added onto a concretely occupied cell:
the rejection surfaces as `CellIsOccupiedError`, yet the id index already
registers the player at that point and the player slot is set. -/
theorem world_add_occupied_not_atomic_witness :
    (World.add
        (⟨1, 1, [[⟨⟨0, 0⟩, [], some ⟨1, "stone pillar", none, false⟩⟩]],
          [("stone pillar", [1])],
          [(1, (⟨0, 0⟩, ⟨1, "stone pillar", none, false⟩))],
          none, none⟩ : World)
        ⟨0, 0⟩ ⟨0, "shepherd", some true, false⟩).2
      = some (WErr.cellIsOccupied ⟨0, 0⟩)
    ∧ pyGetItem (World.add
        (⟨1, 1, [[⟨⟨0, 0⟩, [], some ⟨1, "stone pillar", none, false⟩⟩]],
          [("stone pillar", [1])],
          [(1, (⟨0, 0⟩, ⟨1, "stone pillar", none, false⟩))],
          none, none⟩ : World)
        ⟨0, 0⟩ ⟨0, "shepherd", some true, false⟩).1.entity_id_map 0
      = some (⟨0, 0⟩, ⟨0, "shepherd", some true, false⟩)
    ∧ (World.add
        (⟨1, 1, [[⟨⟨0, 0⟩, [], some ⟨1, "stone pillar", none, false⟩⟩]],
          [("stone pillar", [1])],
          [(1, (⟨0, 0⟩, ⟨1, "stone pillar", none, false⟩))],
          none, none⟩ : World)
        ⟨0, 0⟩ ⟨0, "shepherd", some true, false⟩).1.player
      = some ⟨0, "shepherd", some true, false⟩ := by
  have h := (world_add_occupied_not_atomic
    (⟨1, 1, [[⟨⟨0, 0⟩, [], some ⟨1, "stone pillar", none, false⟩⟩]],
      [("stone pillar", [1])],
      [(1, (⟨0, 0⟩, ⟨1, "stone pillar", none, false⟩))],
      none, none⟩ : World)
    ⟨0, 0⟩ ⟨0, "shepherd", some true, false⟩
    ⟨⟨0, 0⟩, [], some ⟨1, "stone pillar", none, false⟩⟩
    rfl rfl rfl).1 rfl
  exact ⟨h.1, h.2.1, h.2.2.1⟩

/-- Claim C8 counterexample: `World.remove` raises exceptions other than
`EntityNotFoundError` for ids not present at the queried point.  An id
registered nowhere raises Python's bare `KeyError` from
`entity_id_map.pop`; an id registered to a repository non-player entity
(no `is_player` attribute) raises `AttributeError` at the
`info.entity.is_player` guard before the cell is even consulted. -/
theorem remove_unregistered_keyerror_counterexample :
    (World.remove (mkWorld 1 1) ⟨0, 0⟩ 7).2 = Except.error WErr.keyError
    ∧ WErr.keyError ≠ WErr.entityNotFound ⟨0, 0⟩ 7
    ∧ (World.remove
        (⟨2, 1, [[⟨⟨0, 0⟩, [], some ⟨5, "wandering shrub", none, false⟩⟩,
            Cell.mkEmpty ⟨1, 0⟩]],
          [("wandering shrub", [5])],
          [(5, (⟨0, 0⟩, ⟨5, "wandering shrub", none, false⟩))],
          none, none⟩ : World) ⟨1, 0⟩ 5).2
      = Except.error WErr.attributeError :=
  ⟨rfl, by decide, rfl⟩

/-- Claim C8 (amended): `World.remove(point, id)` reaches
`EntityNotFoundError` only when the popped entity's class defines
`is_player` as falsy — which no repository entity class does (only
`Player` defines it, as `True`).  In the program as written: an id not
registered in the world raises a bare `KeyError` from `entity_id_map.pop`;
an id registered to any repository non-player entity raises
`AttributeError` at the `info.entity.is_player` guard, with the id-index
entry already popped and the cell never consulted; neither is a member of
the `WorldError` family.  The `EntityNotFoundError` branch is stated for
the hypothetical `is_player = False` entity the code text handles. -/
theorem remove_error_taxonomy (w : World) (p : Point) (eid : Nat) :
    (pyGetItem w.entity_id_map eid = none →
      World.remove w p eid = (w, Except.error WErr.keyError))
    ∧ (∀ (pt : Point) (ent : WEntity),
        pyGetItem w.entity_id_map eid = some (pt, ent) →
        ent.is_player = none →
        World.remove w p eid
          = ({ w with entity_id_map :=
                w.entity_id_map.filter (fun kv => !decide (kv.1 = eid)) },
             Except.error WErr.attributeError))
    ∧ (∀ (pt : Point) (ent : WEntity) (c : Cell),
        pyGetItem w.entity_id_map eid = some (pt, ent) →
        ent.is_player = some false →
        gridGet w.grid p = some c →
        (∀ o, c.occupant = some o → eid ≠ o.id) →
        c.floor.find? (fun x => x.id == eid) = none →
        (World.remove w p eid).2
          = Except.error (WErr.entityNotFound c.point eid)) := by
  refine ⟨?_, ?_, ?_⟩
  · intro hnone
    exact World.remove_keyerror w p eid hnone
  · intro pt ent hsome hnone
    have hpop : pyPopItem w.entity_id_map eid
        = some ((pt, ent),
            w.entity_id_map.filter (fun kv => !decide (kv.1 = eid))) := by
      rw [pyPopItem, hsome]
    exact World.remove_attrerror w p eid pt ent _ hpop hnone
  · intro pt ent c hsome hnp hc hocc hfl
    have hpop : pyPopItem w.entity_id_map eid
        = some ((pt, ent),
            w.entity_id_map.filter (fun kv => !decide (kv.1 = eid))) := by
      rw [pyPopItem, hsome]
    rw [World.remove_nonplayer w p eid pt ent _ hpop hnp]
    rw [World.cellPopAt_err
      { w with entity_id_map :=
          w.entity_id_map.filter (fun kv => !decide (kv.1 = eid)) }
      p eid c (WErr.entityNotFound c.point eid) hc
      (by rw [Cell.pop_notfound c eid hocc hfl])]

/-- Claim C8 witness: removing an unknown id from an empty world raises
`KeyError`; removing a registered repository non-player id at a point
whose cell lacks it raises `AttributeError` (the id-index entry already
popped), not `EntityNotFoundError`. -/
theorem remove_error_taxonomy_witness :
    World.remove (mkWorld 2 1) ⟨1, 0⟩ 9
      = (mkWorld 2 1, Except.error WErr.keyError)
    ∧ World.remove
        (⟨2, 1, [[⟨⟨0, 0⟩, [], some ⟨5, "wandering shrub", none, false⟩⟩,
            Cell.mkEmpty ⟨1, 0⟩]],
          [("wandering shrub", [5])],
          [(5, (⟨0, 0⟩, ⟨5, "wandering shrub", none, false⟩))],
          none, none⟩ : World) ⟨1, 0⟩ 5
      = ({ (⟨2, 1, [[⟨⟨0, 0⟩, [], some ⟨5, "wandering shrub", none, false⟩⟩,
            Cell.mkEmpty ⟨1, 0⟩]],
          [("wandering shrub", [5])],
          [(5, (⟨0, 0⟩, ⟨5, "wandering shrub", none, false⟩))],
          none, none⟩ : World) with
          entity_id_map :=
            (⟨2, 1, [[⟨⟨0, 0⟩, [], some ⟨5, "wandering shrub", none, false⟩⟩,
                Cell.mkEmpty ⟨1, 0⟩]],
              [("wandering shrub", [5])],
              [(5, (⟨0, 0⟩, ⟨5, "wandering shrub", none, false⟩))],
              none, none⟩ : World).entity_id_map.filter
              (fun kv => !decide (kv.1 = 5)) },
         Except.error WErr.attributeError) :=
  ⟨(remove_error_taxonomy (mkWorld 2 1) ⟨1, 0⟩ 9).1 rfl,
   (remove_error_taxonomy
      (⟨2, 1, [[⟨⟨0, 0⟩, [], some ⟨5, "wandering shrub", none, false⟩⟩,
          Cell.mkEmpty ⟨1, 0⟩]],
        [("wandering shrub", [5])],
        [(5, (⟨0, 0⟩, ⟨5, "wandering shrub", none, false⟩))],
        none, none⟩ : World) ⟨1, 0⟩ 5).2.1
     ⟨0, 0⟩ ⟨5, "wandering shrub", none, false⟩ rfl rfl⟩

/-- Claim C7 (code evaluation at the failing input): no `World.move` ever
completes for a repository entity, so the claimed round trip can never be
exercised.  On a 2-by-1 world holding a non-traversable wandering shrub
(id 5) at (0, 0), `move(5, (0,0), (1,0))` raises `AttributeError` at the
`info.entity.is_player` guard inside `remove` — only `Player` defines
`is_player`; the `Entity` base defines `player_controlled` — after the id
index was popped and before any cell is touched, leaving the grid (and
the shrub's cell) unchanged.  On the analogous world holding the player
(id 0), the same move raises `KeyError` from the name-index removal
inside `remove` (`add` never registers the player in the name index),
again leaving the grid unchanged. -/
theorem world_move_never_completes :
    (World.move
        (⟨2, 1, [[⟨⟨0, 0⟩, [], some ⟨5, "wandering shrub", none, false⟩⟩,
            Cell.mkEmpty ⟨1, 0⟩]],
          [("wandering shrub", [5])],
          [(5, (⟨0, 0⟩, ⟨5, "wandering shrub", none, false⟩))],
          none, none⟩ : World) 5 ⟨0, 0⟩ ⟨1, 0⟩).2
      = Except.error WErr.attributeError
    ∧ (World.move
        (⟨2, 1, [[⟨⟨0, 0⟩, [], some ⟨5, "wandering shrub", none, false⟩⟩,
            Cell.mkEmpty ⟨1, 0⟩]],
          [("wandering shrub", [5])],
          [(5, (⟨0, 0⟩, ⟨5, "wandering shrub", none, false⟩))],
          none, none⟩ : World) 5 ⟨0, 0⟩ ⟨1, 0⟩).1.grid
      = [[⟨⟨0, 0⟩, [], some ⟨5, "wandering shrub", none, false⟩⟩,
          Cell.mkEmpty ⟨1, 0⟩]]
    ∧ (World.move
        (⟨2, 1, [[⟨⟨0, 0⟩, [], some ⟨0, "shepherd", some true, false⟩⟩,
            Cell.mkEmpty ⟨1, 0⟩]],
          [],
          [(0, (⟨0, 0⟩, ⟨0, "shepherd", some true, false⟩))],
          some ⟨0, "shepherd", some true, false⟩, some ⟨0, 0⟩⟩ :
          World) 0 ⟨0, 0⟩ ⟨1, 0⟩).2
      = Except.error WErr.keyError
    ∧ (World.move
        (⟨2, 1, [[⟨⟨0, 0⟩, [], some ⟨0, "shepherd", some true, false⟩⟩,
            Cell.mkEmpty ⟨1, 0⟩]],
          [],
          [(0, (⟨0, 0⟩, ⟨0, "shepherd", some true, false⟩))],
          some ⟨0, "shepherd", some true, false⟩, some ⟨0, 0⟩⟩ :
          World) 0 ⟨0, 0⟩ ⟨1, 0⟩).1.grid
      = [[⟨⟨0, 0⟩, [], some ⟨0, "shepherd", some true, false⟩⟩,
          Cell.mkEmpty ⟨1, 0⟩]] :=
  ⟨rfl, rfl, rfl, rfl⟩

end Shepherd
